import Mathlib

/-!
Shallow embedding of the passkey-authentication subsystem of the
`learning_graphql` repository (Rust: actix-web + webauthn-rs + sea-orm).

Embedded source files:
- `src/src/auth.rs` — the four ceremony handlers
  (`start_registration_anyhow_result`, `finish_registration_anyhow_result`,
  `start_authentication_anyhow_result`, `finish_authentication_anyhow_result`);
- `src/src/db.rs` — `connect` and `transaction` (sea-orm commits the
  transaction when the closure returns `Ok` and rolls it back on `Err`);
- `src/src/main.rs` — the GraphQL resolvers `posts`/`authors` and the
  per-request transaction handling in `handle_graphql`;
- `src/migration/src/m20220101_000001_create_table.rs` — the relational
  schema: `user` (primary key `id`), `passkey` (primary key `user_id`,
  foreign key `user_id → user.id`, on delete/update restrict).

Modelling conventions:
- UUIDs, opaque webauthn values (challenges, states, passkeys,
  authentication results) and requests are represented by `Nat` aliases;
  they are opaque round-tripped values in the source.
- The webauthn-rs library is an external collaborator; it is modelled as a
  record of functions (`Webauthn`) passed to each handler, exactly as
  `web::Data<Webauthn>` is in the source.  `Passkey::update_credential`
  and `AuthenticationResult::user_verified` are fields of the same record.
- The actix session is a string-keyed map (the source uses the keys
  `"reg_state"`, `"auth_state"`, `"user"`); `Session::remove_as` removes
  the entry and then attempts deserialization, returning `Some (Err _)`
  on a type mismatch (the entry is removed either way).
- `Uuid::new_v4()` and `Utc::now()` are nondeterministic inputs; the
  embedding takes them as parameters (`fresh_uuid`, `now`).
- `db::connect` is modelled as infallible (the handlers receive the
  connection); `serde_json::to_value` on a freshly produced value is
  modelled as total, while `from_value` on stored JSON keeps its failure
  branch (`Json.otherJson`).
- The embedded `db_transaction` additionally counts, in `Conn.txns`, how
  many transactions have been opened; this instrumentation is observational
  only and does not alter any data flow.
-/

abbrev Uuid := Nat
abbrev RegState := Nat
abbrev AuthState := Nat
abbrev PasskeyBlob := Nat
abbrev AuthResult := Nat
abbrev CreationChallengeResponse := Nat
abbrev RequestChallengeResponse := Nat
abbrev RegisterPublicKeyCredential := Nat
abbrev PublicKeyCredential := Nat

/-- External webauthn-rs operations, as consumed by `src/src/auth.rs`.
`start_passkey_registration` receives the fresh uuid and the derived
username (the constant display name and `None` exclusion list are elided
as they carry no information). -/
structure Webauthn where
  start_passkey_registration : Uuid → String →
    Except String (CreationChallengeResponse × RegState)
  finish_passkey_registration : RegisterPublicKeyCredential → RegState →
    Except String PasskeyBlob
  start_passkey_authentication : List PasskeyBlob →
    Except String (RequestChallengeResponse × AuthState)
  finish_passkey_authentication : PublicKeyCredential → AuthState →
    Except String AuthResult
  user_verified : AuthResult → Bool
  update_credential : PasskeyBlob → AuthResult → Option Bool × PasskeyBlob

/-- Row of the `user` table (migration lines 9-30): uuid primary key,
nullable slug/name/comment, non-null registration timestamp. -/
structure UserModel where
  id : Uuid
  slug : Option String := none
  name : Option String := none
  comment : Option String := none
  registered_at : Nat
deriving DecidableEq, Repr

/-- JSON value stored in `passkey.content`; either a serialized passkey
blob (every value the source writes) or some other JSON shape, on which
`from_value` fails. -/
inductive Json where
  | passkeyVal (p : PasskeyBlob)
  | otherJson
deriving DecidableEq, Repr

def to_value (p : PasskeyBlob) : Json := Json.passkeyVal p

def from_value : Json → Except String PasskeyBlob
  | Json.passkeyVal p => Except.ok p
  | Json.otherJson => Except.error "passkey content deserialization failed"

/-- Row of the `passkey` table (migration lines 31-52): `user_id` is both
the primary key and a foreign key into `user`. -/
structure PasskeyRow where
  user_id : Uuid
  content : Json
deriving DecidableEq, Repr

/-- The relational database state restricted to the tables the auth
subsystem touches. -/
structure DB where
  users : List UserModel
  passkeys : List PasskeyRow
deriving DecidableEq, Repr

/-- A database connection together with an observational count of how many
transactions have been opened through it. -/
structure Conn where
  db : DB
  txns : Nat
deriving DecidableEq, Repr

/-- `db::transaction` from `src/src/db.rs` lines 19-52: runs the closure
inside a fresh transaction; sea-orm commits when the closure returns `Ok`
and rolls back (restoring the pre-transaction state) when it returns
`Err`. -/
def db_transaction {T : Type} (c : Conn) (f : DB → Except String (T × DB)) :
    Except String T × Conn :=
  match f c.db with
  | Except.ok (t, db2) => (Except.ok t, { db := db2, txns := c.txns + 1 })
  | Except.error e => (Except.error e, { db := c.db, txns := c.txns + 1 })

/-- `user::ActiveModel::insert`: one row inserted; fails on a primary-key
collision (migration: `User::Id` is the primary key). -/
def insertUser (db : DB) (u : UserModel) : Except String DB :=
  if db.users.any (fun x => x.id == u.id) then
    Except.error "unique constraint violation: user.id"
  else
    Except.ok { db with users := db.users ++ [u] }

/-- `passkey::ActiveModel::insert`: fails on a primary-key collision
(migration: `Passkey::UserId` is the primary key) or when the foreign key
`fk_passkey_user_id` is violated (no `user` row with that id). -/
def insertPasskey (db : DB) (p : PasskeyRow) : Except String DB :=
  if db.passkeys.any (fun x => x.user_id == p.user_id) then
    Except.error "unique constraint violation: passkey.user_id"
  else if db.users.any (fun x => x.id == p.user_id) then
    Except.ok { db with passkeys := db.passkeys ++ [p] }
  else
    Except.error "foreign key constraint violation: fk_passkey_user_id"

/-- `passkey::ActiveModel::update` with primary key `user_id` set: updates
the matching row's content; sea-orm fails with `RecordNotUpdated` when no
row matches. -/
def updatePasskeyRow (db : DB) (uid : Uuid) (content : Json) :
    Except String DB :=
  if db.passkeys.any (fun x => x.user_id == uid) then
    Except.ok { db with
      passkeys := db.passkeys.map (fun x =>
        if x.user_id == uid then { x with content := content } else x) }
  else
    Except.error "record not updated: passkey not found"

/-- A value stored in the actix session under one of the keys the source
uses: `(Uuid, PasskeyRegistration)` under `"reg_state"`,
`(Uuid, PasskeyAuthentication)` under `"auth_state"`, and a
`user::Model`-or-null under `"user"`. -/
inductive SessionValue where
  | regStateVal (user_id : Uuid) (st : RegState)
  | authStateVal (user_id : Uuid) (st : AuthState)
  | userVal (u : Option UserModel)
deriving DecidableEq, Repr

/-- The actix session: a string-keyed map of JSON values, restricted to
the keys the source reads and writes. -/
abbrev Session := String → Option SessionValue

def sessionInsert (s : Session) (k : String) (v : SessionValue) : Session :=
  fun k2 => if k2 = k then some v else s k2

def sessionRemove (s : Session) (k : String) : Session :=
  fun k2 => if k2 = k then none else s k2

/-- `session.remove_as::<(Uuid, PasskeyRegistration)>("reg_state")`: the
entry is removed if present; deserialization of a value of the wrong
shape yields `some (Except.error _)`. -/
def removeAsReg (s : Session) :
    Option (Except String (Uuid × RegState)) × Session :=
  match s "reg_state" with
  | none => (none, s)
  | some (SessionValue.regStateVal uid st) =>
      (some (Except.ok (uid, st)), sessionRemove s "reg_state")
  | some _ => (some (Except.error "type mismatch"), sessionRemove s "reg_state")

/-- `session.remove_as::<(Uuid, PasskeyAuthentication)>("auth_state")`. -/
def removeAsAuth (s : Session) :
    Option (Except String (Uuid × AuthState)) × Session :=
  match s "auth_state" with
  | none => (none, s)
  | some (SessionValue.authStateVal uid st) =>
      (some (Except.ok (uid, st)), sessionRemove s "auth_state")
  | some _ => (some (Except.error "type mismatch"), sessionRemove s "auth_state")

/-- `start_registration_anyhow_result` (`src/src/auth.rs` lines 33-42):
removes any pending `"reg_state"`, generates a fresh uuid (parameter),
asks the verifier for a challenge and registration state, and stores
`(user_id, reg_state)` under `"reg_state"`.  No database access. -/
def start_registration_anyhow_result (w : Webauthn) (fresh_uuid : Uuid)
    (s : Session) : Except String CreationChallengeResponse × Session :=
  let s := sessionRemove s "reg_state"
  let user_id := fresh_uuid
  let username := "user-" ++ toString user_id
  match w.start_passkey_registration user_id username with
  | Except.error e => (Except.error e, s)
  | Except.ok (ccr, reg_state) =>
      (Except.ok ccr,
       sessionInsert s "reg_state" (SessionValue.regStateVal user_id reg_state))

/-- `finish_registration_anyhow_result` (`src/src/auth.rs` lines 49-79):
consumes `"reg_state"` (bailing when absent or malformed), verifies the
client response, then inside one `db::transaction` inserts the new user
row and its passkey row, and finally records the user in the session.
The unit result stands for `HttpResponse::Ok().finish()`. -/
def finish_registration_anyhow_result (w : Webauthn)
    (req : RegisterPublicKeyCredential) (s : Session) (c : Conn) (now : Nat) :
    Except String Unit × Session × Conn :=
  match removeAsReg s with
  | (none, s) => (Except.error "No registration state found", s, c)
  | (some (Except.error _), s) =>
      (Except.error "Invalid registration state", s, c)
  | (some (Except.ok (user_id, reg_state)), s) =>
    match w.finish_passkey_registration req reg_state with
    | Except.error e => (Except.error e, s, c)
    | Except.ok pk =>
      let rc := db_transaction c (fun db =>
        let user : UserModel := { id := user_id, registered_at := now }
        match insertUser db user with
        | Except.error e => Except.error e
        | Except.ok db =>
          match insertPasskey db { user_id := user_id, content := to_value pk } with
          | Except.error e => Except.error e
          | Except.ok db => Except.ok (user, db))
      match rc with
      | (Except.error e, c) => (Except.error e, s, c)
      | (Except.ok user, c) =>
          (Except.ok (),
           sessionInsert s "user" (SessionValue.userVal (some user)), c)

/-- `passkeys.into_iter().map(from_value).collect::<Result<Vec<_>>>()`
(`src/src/auth.rs` lines 99-102). -/
def decodeRows : List PasskeyRow → Except String (List PasskeyBlob)
  | [] => Except.ok []
  | r :: rest =>
    match from_value r.content with
    | Except.error e => Except.error e
    | Except.ok p =>
      match decodeRows rest with
      | Except.error e => Except.error e
      | Except.ok ps => Except.ok (p :: ps)

/-- `start_authentication_anyhow_result` (`src/src/auth.rs` lines 86-109):
removes any pending `"auth_state"`, loads the claimed user's passkey rows
inside a `db::transaction`, deserializes them, asks the verifier for a
challenge and authentication state, and stores `(user_id, auth_state)`
under `"auth_state"`. -/
def start_authentication_anyhow_result (w : Webauthn) (user_id : Uuid)
    (s : Session) (c : Conn) :
    Except String RequestChallengeResponse × Session × Conn :=
  let s := sessionRemove s "auth_state"
  let rc := db_transaction c (fun db =>
    Except.ok (db.passkeys.filter (fun x => x.user_id == user_id), db))
  match rc with
  | (Except.error e, c) => (Except.error e, s, c)
  | (Except.ok rows, c) =>
    match decodeRows rows with
    | Except.error e => (Except.error e, s, c)
    | Except.ok passkeys =>
      match w.start_passkey_authentication passkeys with
      | Except.error e => (Except.error e, s, c)
      | Except.ok (rcr, auth_state) =>
          (Except.ok rcr,
           sessionInsert s "auth_state"
             (SessionValue.authStateVal user_id auth_state), c)

/-- The counter-update loop of `finish_authentication_anyhow_result`
(`src/src/auth.rs` lines 128-139): for each fetched row, deserialize the
blob, let the verifier update its credential counter, and persist the row
when `update_credential` reports `Some(true)`. -/
def update_loop (w : Webauthn) (ar : AuthResult) :
    List PasskeyRow → DB → Except String DB
  | [], db => Except.ok db
  | row :: rest, db =>
    match from_value row.content with
    | Except.error e => Except.error e
    | Except.ok p =>
      let up := w.update_credential p ar
      if up.1 == some true then
        match updatePasskeyRow db row.user_id (to_value up.2) with
        | Except.error e => Except.error e
        | Except.ok db2 => update_loop w ar rest db2
      else
        update_loop w ar rest db

/-- `finish_authentication_anyhow_result` (`src/src/auth.rs` lines
116-154): consumes `"auth_state"`, verifies the client response, runs the
counter-update loop inside a first `db::transaction` (which commits on
success), only then bails with "Authentication failed" when
`user_verified` is false, and otherwise looks the user up inside a second
`db::transaction` and stores the (possibly absent) user in the session. -/
def finish_authentication_anyhow_result (w : Webauthn)
    (req : PublicKeyCredential) (s : Session) (c : Conn) :
    Except String Unit × Session × Conn :=
  match removeAsAuth s with
  | (none, s) => (Except.error "No authentication state found", s, c)
  | (some (Except.error _), s) =>
      (Except.error "Invalid authentication state", s, c)
  | (some (Except.ok (user_id, auth_state)), s) =>
    match w.finish_passkey_authentication req auth_state with
    | Except.error e => (Except.error e, s, c)
    | Except.ok ar =>
      let user_verified := w.user_verified ar
      let rc := db_transaction c (fun db =>
        match update_loop w ar
            (db.passkeys.filter (fun x => x.user_id == user_id)) db with
        | Except.error e => Except.error e
        | Except.ok db2 => Except.ok ((), db2))
      match rc with
      | (Except.error e, c) => (Except.error e, s, c)
      | (Except.ok _, c) =>
        if user_verified then
          let rc2 := db_transaction c (fun db =>
            Except.ok (db.users.find? (fun x => x.id == user_id), db))
          match rc2 with
          | (Except.error e, c) => (Except.error e, s, c)
          | (Except.ok user_opt, c) =>
              (Except.ok (),
               sessionInsert s "user" (SessionValue.userVal user_opt), c)
        else
          (Except.error "Authentication failed", s, c)

/-- Rows of the `post` and `author` tables as the GraphQL resolvers of
`src/src/main.rs` read them; their fields are irrelevant to the claims. -/
structure GqlDB where
  posts : List Nat
  authors : List Nat
deriving DecidableEq, Repr

/-- `Weak::upgrade` on the `Weak<DatabaseTransaction>` handle: succeeds
exactly while a strong `Arc` owner is still alive. -/
def weak_upgrade (strongAlive : Bool) (db : GqlDB) : Option GqlDB :=
  if strongAlive then some db else none

/-- The `posts` resolver (`src/src/main.rs` lines 43-49): fetch the weak
transaction handle from the request context (absent handle is the
"no transaction" error), upgrade it (a dead handle is the
"transaction is already dropped" error), then read all posts. -/
def posts_resolver (hasTrxData : Bool) (strongAlive : Bool) (db : GqlDB) :
    Except String (List Nat) :=
  if hasTrxData then
    match weak_upgrade strongAlive db with
    | none => Except.error "transaction is already dropped"
    | some d => Except.ok d.posts
  else
    Except.error "no transaction"

/-- The `authors` resolver (`src/src/main.rs` lines 51-57), same shape as
`posts`. -/
def authors_resolver (hasTrxData : Bool) (strongAlive : Bool) (db : GqlDB) :
    Except String (List Nat) :=
  if hasTrxData then
    match weak_upgrade strongAlive db with
    | none => Except.error "transaction is already dropped"
    | some d => Except.ok d.authors
  else
    Except.error "no transaction"

/-- What becomes of the per-request transaction in `handle_graphql`. -/
inductive TrxFate where
  | committed
  | rolledBack
  | commitFailed
  | leftOpen
deriving DecidableEq, Repr

/-- What `handle_graphql` sends back (or does) after executing the schema. -/
inductive GqlReply where
  | response (isErr : Bool)
  | errorResponse (msg : String)
  | panicked (msg : String)
deriving DecidableEq, Repr

/-- The finalization tail of `handle_graphql` (`src/src/main.rs` lines
128-141), starting at `Arc::try_unwrap`: `strong` is the number of strong
references to the transaction `Arc` once `schema.execute` has returned
(the function created exactly one; any extra one was leaked by a
resolver).  `try_unwrap` succeeds only when `strong = 1`, otherwise the
`expect` panics.  On an error response the transaction is rolled back and
the rollback result is discarded (`let _ = ...`); on a success response
the transaction is committed, and a commit error is surfaced as an error
response. -/
def handle_graphql_finalize (strong : Nat) (resIsErr : Bool)
    (rollbackOk : Bool) (commitOk : Bool) : GqlReply × TrxFate :=
  if strong == 1 then
    if resIsErr then
      let _ := rollbackOk
      (GqlReply.response true, TrxFate.rolledBack)
    else if commitOk then
      (GqlReply.response false, TrxFate.committed)
    else
      (GqlReply.errorResponse "commit failed", TrxFate.commitFailed)
  else
    (GqlReply.panicked "only one reference to the transaction should exist",
     TrxFate.leftOpen)


/-- Concrete verifier used by witnesses: every ceremony succeeds, the user
is verified, and no credential counter needs updating.  Its
`start_passkey_authentication` fails on an empty credential list, matching
webauthn-rs (`CredentialNotFound`). -/
def wOk : Webauthn :=
  { start_passkey_registration := fun _ _ => Except.ok (11, 21)
    finish_passkey_registration := fun _ _ => Except.ok 31
    start_passkey_authentication := fun ps =>
      if ps.isEmpty then Except.error "CredentialNotFound"
      else Except.ok (12, 22)
    finish_passkey_authentication := fun _ _ => Except.ok 41
    user_verified := fun _ => true
    update_credential := fun p _ => (some false, p) }

/-- Concrete verifier whose authentication finish succeeds
cryptographically but reports `user_verified = false`, while the
credential counter of every presented passkey needs persisting
(`update_credential` returns `Some(true)` with an advanced blob). -/
def wReject : Webauthn :=
  { start_passkey_registration := fun _ _ => Except.ok (11, 21)
    finish_passkey_registration := fun _ _ => Except.ok 31
    start_passkey_authentication := fun ps =>
      if ps.isEmpty then Except.error "CredentialNotFound"
      else Except.ok (12, 22)
    finish_passkey_authentication := fun _ _ => Except.ok 41
    user_verified := fun _ => false
    update_credential := fun p _ => (some true, p + 100) }

/-- The empty session. -/
def emptySession : Session := fun _ => none

lemma sessionRemove_self (s : Session) (k : String) :
    sessionRemove s k k = none := by
  simp [sessionRemove]

lemma sessionInsert_other (s : Session) (k k2 : String) (v : SessionValue)
    (h : k2 ≠ k) : sessionInsert s k v k2 = s k2 := by
  simp [sessionInsert, h]

/-- Whatever `finish_registration` does, it leaves no `"reg_state"` entry
in the session: the entry is consumed up front by `remove_as`. -/
lemma finish_reg_clears_reg_state (w : Webauthn)
    (req : RegisterPublicKeyCredential) (s : Session) (c : Conn) (now : Nat) :
    ((finish_registration_anyhow_result w req s c now).2.1) "reg_state"
      = none := by
  unfold finish_registration_anyhow_result removeAsReg
  cases h : s "reg_state" with
  | none => simp [h]
  | some v =>
    cases v with
    | regStateVal uid st =>
      cases hw : w.finish_passkey_registration req st with
      | error e => simp [h, hw, sessionRemove]
      | ok pk =>
        simp only [h, hw]
        split <;> simp [sessionRemove, sessionInsert]
    | authStateVal uid st => simp [h, sessionRemove]
    | userVal u => simp [h, sessionRemove]

/-- A session with no `"reg_state"` entry makes `finish_registration` fail
with the no-pending-ceremony error. -/
lemma finish_reg_no_state (w : Webauthn) (req : RegisterPublicKeyCredential)
    (s : Session) (c : Conn) (now : Nat) (h : s "reg_state" = none) :
    (finish_registration_anyhow_result w req s c now).1
      = Except.error "No registration state found" := by
  unfold finish_registration_anyhow_result removeAsReg
  simp [h]

/-- C1: after one `start_registration` and one `finish_registration`
(succeeding or failing), a second `finish_registration` on the same
session fails with the `NoPendingCeremony` error
("No registration state found"), because `remove_as` consumed the pending
state on first use; and a `finish_registration` with no prior
`start_registration` (no `"reg_state"` entry) fails the same way. -/
theorem finish_registration_single_use
    (w w1 w2 : Webauthn) (u : Uuid) (s s0 : Session) (c c2 : Conn)
    (req1 req2 req3 : RegisterPublicKeyCredential) (now1 now2 now3 : Nat)
    (h : s0 "reg_state" = none) :
    ((finish_registration_anyhow_result w2 req2
        (finish_registration_anyhow_result w1 req1
          (start_registration_anyhow_result w u s).2 c now1).2.1
        (finish_registration_anyhow_result w1 req1
          (start_registration_anyhow_result w u s).2 c now1).2.2 now2).1
      = Except.error "No registration state found")
    ∧ ((finish_registration_anyhow_result w req3 s0 c2 now3).1
      = Except.error "No registration state found") := by
  constructor
  · exact finish_reg_no_state _ _ _ _ _ (finish_reg_clears_reg_state _ _ _ _ _)
  · exact finish_reg_no_state _ _ _ _ _ h

/-- Witness for C1 at concrete inputs. -/
theorem finish_registration_single_use_witness :
    (emptySession "reg_state" = none)
    ∧ (((finish_registration_anyhow_result wOk 2
          (finish_registration_anyhow_result wOk 1
            (start_registration_anyhow_result wOk 7 emptySession).2
            ⟨⟨[], []⟩, 0⟩ 5).2.1
          (finish_registration_anyhow_result wOk 1
            (start_registration_anyhow_result wOk 7 emptySession).2
            ⟨⟨[], []⟩, 0⟩ 5).2.2 6).1
        = Except.error "No registration state found")
      ∧ ((finish_registration_anyhow_result wOk 3 emptySession ⟨⟨[], []⟩, 0⟩ 8).1
        = Except.error "No registration state found")) :=
  ⟨rfl, finish_registration_single_use wOk wOk wOk 7 emptySession emptySession
    ⟨⟨[], []⟩, 0⟩ ⟨⟨[], []⟩, 0⟩ 1 2 3 5 6 8 rfl⟩

/-- Database with one registered user (id 1) owning one passkey. -/
def db1 : DB :=
  { users := [{ id := 1, registered_at := 0 }]
    passkeys := [{ user_id := 1, content := to_value 50 }] }

/-- C3 counterexample: the source keeps registration state under the
session key `"reg_state"` and authentication state under `"auth_state"`;
`start_registration` removes only `"reg_state"` (auth.rs line 34) and
`start_authentication` only `"auth_state"` (auth.rs line 87).  Starting a
registration and then an authentication on the same session leaves BOTH
ceremony states present: starting a new ceremony does not evict a prior
ceremony of the other kind, and two ChallengeStates coexist. -/
theorem ceremony_states_coexist_counterexample :
    ((start_authentication_anyhow_result wOk 1
        (start_registration_anyhow_result wOk 7 emptySession).2
        ⟨db1, 0⟩).2.1 "reg_state"
      = some (SessionValue.regStateVal 7 21))
    ∧ ((start_authentication_anyhow_result wOk 1
        (start_registration_anyhow_result wOk 7 emptySession).2
        ⟨db1, 0⟩).2.1 "auth_state"
      = some (SessionValue.authStateVal 1 22)) := by
  constructor <;> rfl

/-- C3 amended: each session holds at most one ceremony state per kind,
under its own key; starting a ceremony evicts only a prior ceremony of
the same kind (the `"reg_state"` or `"auth_state"` entry it rewrites) and
leaves the other kind's state untouched, so a registration-in-flight and
an authentication-in-flight can coexist in one session. -/
theorem start_ceremony_evicts_same_kind_only (w : Webauthn) (u uid : Uuid)
    (s : Session) (c : Conn) :
    (((start_registration_anyhow_result w u s).2) "auth_state"
       = s "auth_state")
    ∧ (((start_registration_anyhow_result w u s).2) "reg_state" = none
       ∨ ∃ st, ((start_registration_anyhow_result w u s).2) "reg_state"
           = some (SessionValue.regStateVal u st))
    ∧ (((start_authentication_anyhow_result w uid s c).2.1) "reg_state"
       = s "reg_state")
    ∧ (((start_authentication_anyhow_result w uid s c).2.1) "auth_state" = none
       ∨ ∃ st, ((start_authentication_anyhow_result w uid s c).2.1) "auth_state"
           = some (SessionValue.authStateVal uid st)) := by
  refine ⟨?_, ?_, ?_, ?_⟩
  · unfold start_registration_anyhow_result
    cases hw : w.start_passkey_registration u ("user-" ++ toString u) with
    | error e => simp [hw, sessionRemove]
    | ok pr => simp [hw, sessionRemove, sessionInsert]
  · unfold start_registration_anyhow_result
    cases hw : w.start_passkey_registration u ("user-" ++ toString u) with
    | error e => exact Or.inl (by simp [hw, sessionRemove])
    | ok pr => exact Or.inr ⟨pr.2, by simp [hw, sessionRemove, sessionInsert]⟩
  · unfold start_authentication_anyhow_result
    cases hrows : decodeRows (c.db.passkeys.filter (fun x => x.user_id == uid)) with
    | error e => simp [db_transaction, hrows, sessionRemove]
    | ok ps =>
      cases hw : w.start_passkey_authentication ps with
      | error e => simp [db_transaction, hrows, hw, sessionRemove]
      | ok ra => simp [db_transaction, hrows, hw, sessionRemove, sessionInsert]
  · unfold start_authentication_anyhow_result
    cases hrows : decodeRows (c.db.passkeys.filter (fun x => x.user_id == uid)) with
    | error e => exact Or.inl (by simp [db_transaction, hrows, sessionRemove])
    | ok ps =>
      cases hw : w.start_passkey_authentication ps with
      | error e => exact Or.inl (by simp [db_transaction, hrows, hw, sessionRemove])
      | ok ra =>
          exact Or.inr ⟨ra.2, by simp [db_transaction, hrows, hw, sessionRemove, sessionInsert]⟩

/-- C2: when `finish_authentication` finds a pending ceremony, the
verifier succeeds, and `user_verified` is false, the call fails with
`AuthenticationRejected` ("Authentication failed"), but only AFTER the
counter-update transaction (`auth.rs` lines 127-141) has committed: the
final database is exactly the update loop's result (and one transaction
was opened for it), so advanced signature counters persist despite the
rejection. -/
theorem finish_authentication_counter_commit_before_reject
    (w : Webauthn) (req : PublicKeyCredential) (s : Session) (c : Conn)
    (uid : Uuid) (ast : AuthState) (ar : AuthResult) (db2 : DB)
    (hs : s "auth_state" = some (SessionValue.authStateVal uid ast))
    (hv : w.finish_passkey_authentication req ast = Except.ok ar)
    (huv : w.user_verified ar = false)
    (hup : update_loop w ar (c.db.passkeys.filter (fun x => x.user_id == uid))
        c.db = Except.ok db2) :
    (finish_authentication_anyhow_result w req s c).1
      = Except.error "Authentication failed"
    ∧ (finish_authentication_anyhow_result w req s c).2.2
      = { db := db2, txns := c.txns + 1 } := by
  unfold finish_authentication_anyhow_result removeAsAuth
  simp [hs, hv, huv, db_transaction, hup]

/-- Session holding only a pending authentication ceremony for user 1. -/
def sAuth1 : Session :=
  sessionInsert emptySession "auth_state" (SessionValue.authStateVal 1 60)

/-- Database `db1` after user 1's only passkey counter was advanced by
`wReject.update_credential` (blob 50 becomes 150). -/
def db1Updated : DB :=
  { users := [{ id := 1, registered_at := 0 }]
    passkeys := [{ user_id := 1, content := to_value 150 }] }

/-- Witness for C2: a concrete rejected authentication whose counter
update is committed. -/
theorem finish_authentication_counter_commit_before_reject_witness :
    (sAuth1 "auth_state" = some (SessionValue.authStateVal 1 60))
    ∧ (wReject.finish_passkey_authentication 9 60 = Except.ok 41)
    ∧ (wReject.user_verified 41 = false)
    ∧ (update_loop wReject 41
        (db1.passkeys.filter (fun x => x.user_id == 1)) db1
        = Except.ok db1Updated)
    ∧ ((finish_authentication_anyhow_result wReject 9 sAuth1 ⟨db1, 0⟩).1
        = Except.error "Authentication failed"
      ∧ (finish_authentication_anyhow_result wReject 9 sAuth1 ⟨db1, 0⟩).2.2
        = { db := db1Updated, txns := 0 + 1 }) :=
  ⟨rfl, rfl, rfl, rfl,
   finish_authentication_counter_commit_before_reject wReject 9 sAuth1
     ⟨db1, 0⟩ 1 60 41 db1Updated rfl rfl rfl rfl⟩

/-- C4: the two inserts of `finish_registration` run inside one
`db::transaction`: the resulting database either is unchanged (any
failure rolls the whole transaction back) or contains exactly the new
user row together with its passkey row — never one without the other. -/
theorem finish_registration_atomic_user_credential (w : Webauthn)
    (req : RegisterPublicKeyCredential) (s : Session) (c : Conn) (now : Nat) :
    ((finish_registration_anyhow_result w req s c now).2.2.db = c.db)
    ∨ (∃ uid pk, (finish_registration_anyhow_result w req s c now).2.2.db
        = { users := c.db.users ++ [{ id := uid, registered_at := now }],
            passkeys := c.db.passkeys
              ++ [{ user_id := uid, content := to_value pk }] }) := by
  unfold finish_registration_anyhow_result removeAsReg
  cases hs : s "reg_state" with
  | none => left; simp [hs]
  | some v =>
    cases v with
    | authStateVal uid st => left; simp [hs]
    | userVal u => left; simp [hs]
    | regStateVal uid st =>
      cases hw : w.finish_passkey_registration req st with
      | error e => left; simp [hs, hw]
      | ok pk =>
        cases hU : insertUser c.db { id := uid, registered_at := now } with
        | error e => left; simp [hs, hw, db_transaction, hU]
        | ok dbU =>
          cases hP : insertPasskey dbU { user_id := uid, content := to_value pk } with
          | error e => left; simp [hs, hw, db_transaction, hU, hP]
          | ok dbP =>
            right
            refine ⟨uid, pk, ?_⟩
            have hU2 : dbU = { c.db with
                users := c.db.users ++ [{ id := uid, registered_at := now }] } := by
              unfold insertUser at hU
              split at hU
              · simp at hU
              · simpa using hU.symm
            have hP2 : dbP = { dbU with
                passkeys := dbU.passkeys
                  ++ [{ user_id := uid, content := to_value pk }] } := by
              unfold insertPasskey at hP
              split at hP
              · simp at hP
              · split at hP
                · simpa using hP.symm
                · simp at hP
            subst hU2
            subst hP2
            simp [hs, hw, db_transaction, hU, hP]

/-- C5: a resolver whose upgrade of the weak transaction handle fails
reports the fatal internal error "transaction is already dropped" instead
of proceeding (both `posts` and `authors`), and `handle_graphql`'s
`Arc::try_unwrap(..).expect(..)` fails loudly (panics, leaving no commit)
whenever the strong reference count at finalize time is not exactly
one. -/
theorem transaction_handle_upgrade_and_finalize_guard
    (db : GqlDB) (strong : Nat) (resIsErr rollbackOk commitOk : Bool)
    (hstrong : strong ≠ 1) :
    (posts_resolver true false db
      = Except.error "transaction is already dropped")
    ∧ (authors_resolver true false db
      = Except.error "transaction is already dropped")
    ∧ ((handle_graphql_finalize strong resIsErr rollbackOk commitOk).1
      = GqlReply.panicked "only one reference to the transaction should exist")
    ∧ ((handle_graphql_finalize strong resIsErr rollbackOk commitOk).2
      = TrxFate.leftOpen) := by
  have hb : (strong == 1) = false := by simpa using hstrong
  refine ⟨rfl, rfl, ?_, ?_⟩ <;> simp [handle_graphql_finalize, hb]

/-- Witness for C5 with two strong references at finalize time. -/
theorem transaction_handle_upgrade_and_finalize_guard_witness :
    ((2 : Nat) ≠ 1)
    ∧ ((posts_resolver true false ⟨[3], [4]⟩
        = Except.error "transaction is already dropped")
      ∧ (authors_resolver true false ⟨[3], [4]⟩
        = Except.error "transaction is already dropped")
      ∧ ((handle_graphql_finalize 2 false true true).1
        = GqlReply.panicked "only one reference to the transaction should exist")
      ∧ ((handle_graphql_finalize 2 false true true).2
        = TrxFate.leftOpen)) :=
  ⟨by decide,
   transaction_handle_upgrade_and_finalize_guard ⟨[3], [4]⟩ 2 false true true
     (by decide)⟩

/-- C9: with the single strong owner present, `handle_graphql` rolls the
transaction back and returns the error response whenever the GraphQL
result reports an error (the rollback result is discarded, whatever it
is), commits exactly when the result is a success, and surfaces a commit
error as an error response. -/
theorem handle_graphql_commit_policy (rollbackOk : Bool) :
    (handle_graphql_finalize 1 true rollbackOk true
      = (GqlReply.response true, TrxFate.rolledBack))
    ∧ (handle_graphql_finalize 1 true rollbackOk false
      = (GqlReply.response true, TrxFate.rolledBack))
    ∧ (handle_graphql_finalize 1 false rollbackOk true
      = (GqlReply.response false, TrxFate.committed))
    ∧ (handle_graphql_finalize 1 false rollbackOk false
      = (GqlReply.errorResponse "commit failed", TrxFate.commitFailed)) :=
  ⟨rfl, rfl, rfl, rfl⟩

/-- C6 counterexample: a fully successful `finish_authentication` opens
TWO database transactions of its own (`auth.rs` lines 127 and 147) — the
request's operations do not run inside exactly one caller-opened
transaction, and the credential-store operations run in transactions the
handler opens itself. -/
theorem finish_authentication_two_transactions_counterexample :
    ((finish_authentication_anyhow_result wOk 9 sAuth1 ⟨db1, 0⟩).1
      = Except.ok ())
    ∧ ((finish_authentication_anyhow_result wOk 9 sAuth1 ⟨db1, 0⟩).2.2.txns = 2)
    ∧ ¬ ((2 : Nat) = 1) := by
  refine ⟨rfl, rfl, by decide⟩

/-- C6 amended: the auth handlers open their own transactions through
`db::transaction` rather than executing inside one caller-supplied
per-request transaction; in particular a `finish_authentication` that
passes verification opens exactly two transactions (one for the counter
updates, a second for the user lookup). -/
theorem finish_authentication_opens_two_transactions
    (w : Webauthn) (req : PublicKeyCredential) (s : Session) (c : Conn)
    (uid : Uuid) (ast : AuthState) (ar : AuthResult) (db2 : DB)
    (hs : s "auth_state" = some (SessionValue.authStateVal uid ast))
    (hv : w.finish_passkey_authentication req ast = Except.ok ar)
    (huv : w.user_verified ar = true)
    (hup : update_loop w ar (c.db.passkeys.filter (fun x => x.user_id == uid))
        c.db = Except.ok db2) :
    (finish_authentication_anyhow_result w req s c).2.2.txns = c.txns + 2 := by
  unfold finish_authentication_anyhow_result removeAsAuth
  simp [hs, hv, huv, db_transaction, hup]

/-- Witness for the amended C6 at concrete inputs. -/
theorem finish_authentication_opens_two_transactions_witness :
    (sAuth1 "auth_state" = some (SessionValue.authStateVal 1 60))
    ∧ (wOk.finish_passkey_authentication 9 60 = Except.ok 41)
    ∧ (wOk.user_verified 41 = true)
    ∧ (update_loop wOk 41 (db1.passkeys.filter (fun x => x.user_id == 1)) db1
        = Except.ok db1)
    ∧ ((finish_authentication_anyhow_result wOk 9 sAuth1 ⟨db1, 0⟩).2.2.txns
        = 0 + 2) :=
  ⟨rfl, rfl, rfl, rfl,
   finish_authentication_opens_two_transactions wOk 9 sAuth1 ⟨db1, 0⟩ 1 60 41
     db1 rfl rfl rfl rfl⟩

/-- C7 counterexample: the migration makes `user_id` the PRIMARY KEY of
the `passkey` table, so a user who already owns a credential cannot be
given a second one — inserting a further credential with a distinct blob
for the same user fails with the primary-key constraint violation
instead of succeeding. -/
theorem second_credential_insert_fails_counterexample :
    (insertPasskey db1 { user_id := 1, content := to_value 51 }
      = Except.error "unique constraint violation: passkey.user_id")
    ∧ (to_value 51 ≠ to_value 50) := by
  refine ⟨rfl, by decide⟩

/-- C7 amended: a user owns zero or ONE stored credential: inserting a
credential for a user who already owns one fails with a
`ConstraintViolation` (primary key on `passkey.user_id`); inserting a
credential whose user id references no existing user fails with a
`ConstraintViolation` (foreign key `fk_passkey_user_id`); inserting a
first credential for an existing user succeeds. -/
theorem passkey_ownership_constraints (db : DB) (p : PasskeyRow)
    (howned : db.passkeys.any (fun x => x.user_id == p.user_id) = true)
    (q : PasskeyRow)
    (hnotowned : db.passkeys.any (fun x => x.user_id == q.user_id) = false) :
    (insertPasskey db p
      = Except.error "unique constraint violation: passkey.user_id")
    ∧ (db.users.any (fun x => x.id == q.user_id) = false →
       insertPasskey db q
        = Except.error "foreign key constraint violation: fk_passkey_user_id")
    ∧ (db.users.any (fun x => x.id == q.user_id) = true →
       insertPasskey db q
        = Except.ok { db with passkeys := db.passkeys ++ [q] }) := by
  refine ⟨?_, ?_, ?_⟩
  · simp [insertPasskey, howned]
  · intro hnouser
    simp [insertPasskey, hnotowned, hnouser]
  · intro huser
    simp [insertPasskey, hnotowned, huser]

/-- Witness for the amended C7: user 1 already owns a credential (second
insert fails); user 2 does not exist (foreign-key failure); after adding
user 2, the first credential insert for it succeeds. -/
theorem passkey_ownership_constraints_witness :
    (db1.passkeys.any (fun x => x.user_id == 1) = true)
    ∧ (db1.passkeys.any (fun x => x.user_id == 2) = false)
    ∧ ((insertPasskey db1 { user_id := 1, content := to_value 51 }
        = Except.error "unique constraint violation: passkey.user_id")
      ∧ (db1.users.any (fun x => x.id == 2) = false →
         insertPasskey db1 { user_id := 2, content := to_value 52 }
          = Except.error "foreign key constraint violation: fk_passkey_user_id")
      ∧ (db1.users.any (fun x => x.id == 2) = true →
         insertPasskey db1 { user_id := 2, content := to_value 52 }
          = Except.ok { db1 with
              passkeys := db1.passkeys ++ [{ user_id := 2, content := to_value 52 }] })) :=
  ⟨rfl, rfl,
   passkey_ownership_constraints db1 { user_id := 1, content := to_value 51 }
     rfl { user_id := 2, content := to_value 52 } rfl⟩

/-- C8 counterexample: with a verifier that (like webauthn-rs) fails on an
empty credential list, `start_authentication` for the credential-less
user 2 returns an error response while the same call for user 1 (who owns
a credential) returns a challenge — the response shapes are
distinguishable, contradicting the claimed indistinguishability. -/
theorem zero_credential_auth_distinguishable_counterexample :
    ((start_authentication_anyhow_result wOk 2 emptySession ⟨db1, 0⟩).1
      = Except.error "CredentialNotFound")
    ∧ ((start_authentication_anyhow_result wOk 1 emptySession ⟨db1, 0⟩).1
      = Except.ok 12) := by
  refine ⟨rfl, rfl⟩

/-- C8 amended: for a user owning zero stored credentials,
`start_authentication` does not crash: it propagates the verifier's
empty-credential-list error (surfaced as the `UnknownUser` failure) and
stores no authentication challenge state; the failure response is however
distinguishable from a real user's challenge. -/
theorem start_authentication_zero_credentials (w : Webauthn) (uid : Uuid)
    (s : Session) (c : Conn) (e : String)
    (hrows : c.db.passkeys.filter (fun x => x.user_id == uid) = [])
    (hw : w.start_passkey_authentication [] = Except.error e) :
    ((start_authentication_anyhow_result w uid s c).1 = Except.error e)
    ∧ ((start_authentication_anyhow_result w uid s c).2.1 "auth_state"
      = none) := by
  unfold start_authentication_anyhow_result
  simp [db_transaction, hrows, decodeRows, hw, sessionRemove]

/-- Witness for the amended C8 at the credential-less user 2. -/
theorem start_authentication_zero_credentials_witness :
    (db1.passkeys.filter (fun x => x.user_id == 2) = [])
    ∧ (wOk.start_passkey_authentication [] = Except.error "CredentialNotFound")
    ∧ (((start_authentication_anyhow_result wOk 2 emptySession ⟨db1, 0⟩).1
        = Except.error "CredentialNotFound")
      ∧ ((start_authentication_anyhow_result wOk 2 emptySession ⟨db1, 0⟩).2.1
          "auth_state" = none)) :=
  ⟨rfl, rfl,
   start_authentication_zero_credentials wOk 2 emptySession ⟨db1, 0⟩
     "CredentialNotFound" rfl rfl⟩

/-- C10: when `finish_authentication` passes verification with
`user_verified = true` but no `user` row exists for the authenticated id,
the call still succeeds (HTTP 200) and records `None` as the session's
logged-in user instead of failing with a not-found error. -/
theorem finish_authentication_missing_user_success
    (w : Webauthn) (req : PublicKeyCredential) (s : Session) (c : Conn)
    (uid : Uuid) (ast : AuthState) (ar : AuthResult) (db2 : DB)
    (hs : s "auth_state" = some (SessionValue.authStateVal uid ast))
    (hv : w.finish_passkey_authentication req ast = Except.ok ar)
    (huv : w.user_verified ar = true)
    (hup : update_loop w ar (c.db.passkeys.filter (fun x => x.user_id == uid))
        c.db = Except.ok db2)
    (hfind : db2.users.find? (fun x => x.id == uid) = none) :
    ((finish_authentication_anyhow_result w req s c).1 = Except.ok ())
    ∧ ((finish_authentication_anyhow_result w req s c).2.1 "user"
      = some (SessionValue.userVal none)) := by
  unfold finish_authentication_anyhow_result removeAsAuth
  simp [hs, hv, huv, db_transaction, hup, hfind, sessionInsert]

/-- Witness for C10: an empty database, so the authenticated user 1 has no
row; the call succeeds and records an absent user. -/
theorem finish_authentication_missing_user_success_witness :
    (sAuth1 "auth_state" = some (SessionValue.authStateVal 1 60))
    ∧ (wOk.finish_passkey_authentication 9 60 = Except.ok 41)
    ∧ (wOk.user_verified 41 = true)
    ∧ (update_loop wOk 41
        ((DB.mk [] []).passkeys.filter (fun x => x.user_id == 1)) (DB.mk [] [])
        = Except.ok (DB.mk [] []))
    ∧ ((DB.mk [] []).users.find? (fun x => x.id == 1) = none)
    ∧ (((finish_authentication_anyhow_result wOk 9 sAuth1 ⟨DB.mk [] [], 0⟩).1
        = Except.ok ())
      ∧ ((finish_authentication_anyhow_result wOk 9 sAuth1
          ⟨DB.mk [] [], 0⟩).2.1 "user" = some (SessionValue.userVal none))) :=
  ⟨rfl, rfl, rfl, rfl, rfl,
   finish_authentication_missing_user_success wOk 9 sAuth1 ⟨DB.mk [] [], 0⟩
     1 60 41 (DB.mk [] []) rfl rfl rfl rfl rfl⟩
